import Mathlib

/-!
Verification development for the btbricks BLE connection core
(`_discovery_manager.py`, `_connection_context.py`, `_callback_registry.py`,
`_uart_manager.py`, `_lego_manager.py`).

Modelling conventions of the shallow embedding:
  * Python byte strings are `List Nat`; `pybytes` marks the places where the
    source copies a caller-owned buffer with `bytes(...)`.
  * Python `None`-able values are `Option _`; user callbacks are opaque `Nat`
    tokens (the state machine never calls into them, it only stores them and
    records invocations in an explicit event log returned by the operation).
  * The callback dictionaries of `CallbackRegistry` are total functions
    `Option Nat → Option Nat` from a key (a Python int or `None` — the code can
    genuinely use `conn_handle`, an `Optional[int]`, as a dictionary key) to
    the stored callback token, `dict.get`-style.
  * BLE radio events arrive asynchronously while `connect` sleeps; they are
    modelled by an environment function `env : Nat → BLEHandler → BLEHandler`
    giving, for each one-second polling tick, the state change the
    event-driven orchestrator code performed during that tick's sleep.
-/

/-- Python `bytes(b)`: builds an owned copy of the byte buffer `b`.  Byte
strings are immutable `List Nat` values here, so the copy is the identity on
the value; applying `pybytes` in a definition records exactly the places where
the source copies a caller-owned buffer (`bytes(addr)`). -/
def pybytes (b : List Nat) : List Nat := b

/-- Mode constant `CONNECTING_NONE` from `_connection_context.py`. -/
def CONNECTING_NONE : Nat := 0

/-- Mode constant `CONNECTING_UART` from `_connection_context.py`. -/
def CONNECTING_UART : Nat := 1

/-- Mode constant `CONNECTING_LEGO` from `_connection_context.py`. -/
def CONNECTING_LEGO : Nat := 2

/-- State constant `ConnectionContext.STATE_IDLE`. -/
def STATE_IDLE : Nat := 0

/-- State constant `ConnectionContext.STATE_CONNECTING`. -/
def STATE_CONNECTING : Nat := 1

/-- State constant `ConnectionContext.STATE_DISCOVERING`. -/
def STATE_DISCOVERING : Nat := 2

/-- State constant `ConnectionContext.STATE_CONNECTED`. -/
def STATE_CONNECTED : Nat := 3

/-- State constant `ConnectionContext.STATE_DISCONNECTING`. -/
def STATE_DISCONNECTING : Nat := 4

/-- State of `DiscoveryManager` (`_discovery_manager.py`), field for field. -/
structure DiscoveryManager where
  _search_name : Option String
  _search_uuid : Option Nat
  mode : Nat
  _addr_type : Option Nat
  _addr : Option (List Nat)
  _adv_type : Option Nat
  _name : Option String
  _services : Option (List Nat)
  _scan_result_callback : Option Nat
  _scan_done_callback : Option Nat
deriving DecidableEq

/-- The `DiscoveryManager.__init__` state. -/
def DiscoveryManager.init : DiscoveryManager :=
  ⟨none, none, CONNECTING_NONE, none, none, none, none, none, none, none⟩

/-- Embeds `DiscoveryManager.start_uart_discovery(name, callback_result, callback_done)`. -/
def DiscoveryManager.start_uart_discovery (dm : DiscoveryManager) (name : String)
    (callback_result callback_done : Option Nat) : DiscoveryManager :=
  { dm with
    _search_name := some name
    mode := CONNECTING_UART
    _addr_type := none
    _addr := none
    _scan_result_callback := callback_result
    _scan_done_callback := callback_done }

/-- Embeds `DiscoveryManager.start_lego_discovery(callback_result, callback_done)`. -/
def DiscoveryManager.start_lego_discovery (dm : DiscoveryManager)
    (callback_result callback_done : Option Nat) : DiscoveryManager :=
  { dm with
    mode := CONNECTING_LEGO
    _addr_type := none
    _addr := none
    _adv_type := none
    _name := none
    _services := none
    _scan_result_callback := callback_result
    _scan_done_callback := callback_done }

/-- Embeds `DiscoveryManager.stop_discovery()`. -/
def DiscoveryManager.stop_discovery (dm : DiscoveryManager) : DiscoveryManager :=
  { dm with
    mode := CONNECTING_NONE
    _scan_result_callback := none
    _scan_done_callback := none }

/-- Invocation log of the trailing `if self._scan_result_callback:
self._scan_result_callback(addr_type, addr, name, services)` of
`on_scan_result`: the installed callback token, if any, with the raw
advertisement it was passed. -/
def scan_result_calls (cb : Option Nat) (addr_type : Nat) (addr : List Nat)
    (name : String) (services : List Nat) :
    List (Nat × Nat × List Nat × String × List Nat) :=
  match cb with
  | some c => [(c, addr_type, addr, name, services)]
  | none => []

/-- Invocation log of the trailing `if self._scan_done_callback:
self._scan_done_callback(found)` of `on_scan_done`: the installed callback
token, if any, with the `found` flag it was passed. -/
def scan_done_calls (cb : Option Nat) (found : Bool) : List (Nat × Bool) :=
  match cb with
  | some c => [(c, found)]
  | none => []

/-- Embeds `DiscoveryManager.on_scan_result(addr_type, addr, name, services,
uart_uuid, lego_uuid)`.  Returns `(matched, new state, scan-result-callback
invocation log)`.
Python's `name == self._search_name` compares a `str` with an `Optional[str]`
and is true exactly when the stored name is that string, hence the
`dm._search_name = some name` test. -/
def DiscoveryManager.on_scan_result (dm : DiscoveryManager) (addr_type : Nat)
    (addr : List Nat) (name : String) (services : List Nat)
    (uart_uuid lego_uuid : Nat) :
    Bool × DiscoveryManager × List (Nat × Nat × List Nat × String × List Nat) :=
  let step1 : Bool × DiscoveryManager :=
    if dm.mode = CONNECTING_UART then
      if dm._search_name = some name ∧ uart_uuid ∈ services then
        (true, { dm with _addr_type := some addr_type, _addr := some (pybytes addr) })
      else (false, dm)
    else (false, dm)
  let step2 : Bool × DiscoveryManager :=
    if step1.2.mode = CONNECTING_LEGO then
      if lego_uuid ∈ services then
        (true, { step1.2 with
                  _addr_type := some addr_type
                  _addr := some (pybytes addr)
                  _adv_type := none
                  _name := some name
                  _services := some services })
      else step1
    else step1
  (step2.1, step2.2,
    scan_result_calls step2.2._scan_result_callback addr_type addr name services)

/-- Embeds `DiscoveryManager.on_scan_done()`.  Returns `(found, info,
scan-done-callback invocation log)`; a log entry is the callback token paired
with the `found` flag it was passed. -/
def DiscoveryManager.on_scan_done (dm : DiscoveryManager) :
    Bool × Option String × List (Nat × Bool) :=
  let found_info : Bool × Option String :=
    if dm.mode = CONNECTING_UART then
      let found := dm._addr_type.isSome
      (found, if found then dm._search_name else none)
    else if dm.mode = CONNECTING_LEGO then
      let found := dm._addr_type.isSome
      (found, if found then dm._name else none)
    else (false, none)
  (found_info.1, found_info.2, scan_done_calls dm._scan_done_callback found_info.1)

/-- Embeds `DiscoveryManager.get_discovered_address()`. -/
def DiscoveryManager.get_discovered_address (dm : DiscoveryManager) :
    Option Nat × Option (List Nat) :=
  (dm._addr_type, dm._addr)

/-- Embeds `DiscoveryManager.is_discovering()`. -/
def DiscoveryManager.is_discovering (dm : DiscoveryManager) : Bool :=
  dm.mode != CONNECTING_NONE

/-- State of `ConnectionContext` (`_connection_context.py`), field for field. -/
structure ConnectionContext where
  conn_handle : Option Nat
  addr_type : Option Nat
  addr : Option (List Nat)
  start_handle : Option Nat
  end_handle : Option Nat
  uart_rx_handle : Option Nat
  uart_tx_handle : Option Nat
  lego_value_handle : Option Nat
  adv_type : Option Nat
  name : Option String
  services : Option (List Nat)
  state : Nat
deriving DecidableEq

/-- The `ConnectionContext.__init__` state: everything unset, state idle. -/
def ConnectionContext.init : ConnectionContext :=
  ⟨none, none, none, none, none, none, none, none, none, none, none, STATE_IDLE⟩

/-- Embeds `ConnectionContext.reset()`: full wipe of every field. -/
def ConnectionContext.reset (_ : ConnectionContext) : ConnectionContext :=
  ConnectionContext.init

/-- Embeds `ConnectionContext.set_connection_info(conn_handle, addr_type, addr)`:
the connection handle is assigned unconditionally, the address fields only
when the corresponding argument is not `None`, and the address is stored as a
`bytes(addr)` copy. -/
def ConnectionContext.set_connection_info (ctx : ConnectionContext)
    (conn_handle : Option Nat) (addr_type : Option Nat) (addr : Option (List Nat)) :
    ConnectionContext :=
  let ctx1 := { ctx with conn_handle := conn_handle }
  let ctx2 := match addr_type with
    | some t => { ctx1 with addr_type := some t }
    | none => ctx1
  match addr with
  | some a => { ctx2 with addr := some (pybytes a) }
  | none => ctx2

/-- Embeds `ConnectionContext.set_discovery_handles(start_handle, end_handle)`. -/
def ConnectionContext.set_discovery_handles (ctx : ConnectionContext)
    (start_handle end_handle : Nat) : ConnectionContext :=
  { ctx with start_handle := some start_handle, end_handle := some end_handle }

/-- Embeds `ConnectionContext.set_uart_handles(rx_handle, tx_handle)`. -/
def ConnectionContext.set_uart_handles (ctx : ConnectionContext)
    (rx_handle tx_handle : Nat) : ConnectionContext :=
  { ctx with uart_rx_handle := some rx_handle, uart_tx_handle := some tx_handle }

/-- Embeds `ConnectionContext.set_lego_handle(value_handle)`. -/
def ConnectionContext.set_lego_handle (ctx : ConnectionContext)
    (value_handle : Nat) : ConnectionContext :=
  { ctx with lego_value_handle := some value_handle }

/-- Embeds `ConnectionContext.set_discovery_data(adv_type, name, services)`;
`services if services else []` stores the empty list for `None` or `[]`. -/
def ConnectionContext.set_discovery_data (ctx : ConnectionContext)
    (adv_type : Option Nat) (name : Option String) (services : Option (List Nat)) :
    ConnectionContext :=
  { ctx with
    adv_type := adv_type
    name := name
    services := some (match services with | some l => l | none => []) }

/-- Embeds `ConnectionContext.is_uart_ready()`. -/
def ConnectionContext.is_uart_ready (ctx : ConnectionContext) : Bool :=
  ctx.uart_rx_handle.isSome && ctx.uart_tx_handle.isSome

/-- Embeds `ConnectionContext.is_lego_ready()`. -/
def ConnectionContext.is_lego_ready (ctx : ConnectionContext) : Bool :=
  ctx.lego_value_handle.isSome

/-- Embeds `ConnectionContext.is_connected()`. -/
def ConnectionContext.is_connected (ctx : ConnectionContext) : Bool :=
  ctx.conn_handle.isSome && (ctx.state == STATE_CONNECTED)

/-- Embeds `ConnectionContext.has_discovery_handles()`. -/
def ConnectionContext.has_discovery_handles (ctx : ConnectionContext) : Bool :=
  ctx.start_handle.isSome && ctx.end_handle.isSome

/-- Embeds `ConnectionContext.clear_connection()`: narrow wipe, only the
connection handle and the lifecycle state. -/
def ConnectionContext.clear_connection (ctx : ConnectionContext) : ConnectionContext :=
  { ctx with conn_handle := none, state := STATE_IDLE }

/-- State of `CallbackRegistry` (`_callback_registry.py`).  The four callback
dictionaries are `dict.get`-style total functions from a key to the optionally
stored callback token. -/
structure CallbackRegistry where
  _write_callbacks : Option Nat → Option Nat
  _write_done_callbacks : Option Nat → Option Nat
  _notify_callbacks : Option Nat → Option Nat
  _disconn_callbacks : Option Nat → Option Nat
  _central_conn_callback : Option Nat
  _central_disconn_callback : Option Nat
  _scan_result_callback : Option Nat
  _scan_done_callback : Option Nat
  _char_result_callback : Option Nat

/-- The `CallbackRegistry.__init__` state: empty dictionaries, no singletons. -/
def CallbackRegistry.init : CallbackRegistry :=
  ⟨fun _ => none, fun _ => none, fun _ => none, fun _ => none,
   none, none, none, none, none⟩

/-- Embeds `CallbackRegistry.on_write(value_handle, callback)`. -/
def CallbackRegistry.on_write (reg : CallbackRegistry) (value_handle : Option Nat)
    (callback : Nat) : CallbackRegistry :=
  { reg with _write_callbacks :=
      fun k => if k = value_handle then some callback else reg._write_callbacks k }

/-- Embeds `CallbackRegistry.on_write_done(conn_handle, callback)`. -/
def CallbackRegistry.on_write_done (reg : CallbackRegistry) (conn_handle : Option Nat)
    (callback : Nat) : CallbackRegistry :=
  { reg with _write_done_callbacks :=
      fun k => if k = conn_handle then some callback else reg._write_done_callbacks k }

/-- Embeds `CallbackRegistry.on_notify(conn_handle, callback)`. -/
def CallbackRegistry.on_notify (reg : CallbackRegistry) (conn_handle : Option Nat)
    (callback : Nat) : CallbackRegistry :=
  { reg with _notify_callbacks :=
      fun k => if k = conn_handle then some callback else reg._notify_callbacks k }

/-- Embeds `CallbackRegistry.on_disconnect(conn_handle, callback)`. -/
def CallbackRegistry.on_disconnect (reg : CallbackRegistry) (conn_handle : Option Nat)
    (callback : Nat) : CallbackRegistry :=
  { reg with _disconn_callbacks :=
      fun k => if k = conn_handle then some callback else reg._disconn_callbacks k }

/-- Embeds `CallbackRegistry.get_write_callback(value_handle)`. -/
def CallbackRegistry.get_write_callback (reg : CallbackRegistry)
    (value_handle : Option Nat) : Option Nat :=
  reg._write_callbacks value_handle

/-- Embeds `CallbackRegistry.get_write_done_callback(conn_handle)`. -/
def CallbackRegistry.get_write_done_callback (reg : CallbackRegistry)
    (conn_handle : Option Nat) : Option Nat :=
  reg._write_done_callbacks conn_handle

/-- Embeds `CallbackRegistry.get_notify_callback(conn_handle)`. -/
def CallbackRegistry.get_notify_callback (reg : CallbackRegistry)
    (conn_handle : Option Nat) : Option Nat :=
  reg._notify_callbacks conn_handle

/-- Embeds `CallbackRegistry.get_disconnect_callback(conn_handle)`. -/
def CallbackRegistry.get_disconnect_callback (reg : CallbackRegistry)
    (conn_handle : Option Nat) : Option Nat :=
  reg._disconn_callbacks conn_handle

/-- Embeds `CallbackRegistry.clear_connection(conn_handle)`: pops the
write-done, notify and disconnect entries for that key. -/
def CallbackRegistry.clear_connection (reg : CallbackRegistry)
    (conn_handle : Option Nat) : CallbackRegistry :=
  { reg with
    _write_done_callbacks :=
      fun k => if k = conn_handle then none else reg._write_done_callbacks k
    _notify_callbacks :=
      fun k => if k = conn_handle then none else reg._notify_callbacks k
    _disconn_callbacks :=
      fun k => if k = conn_handle then none else reg._disconn_callbacks k }

/-- Embeds `CallbackRegistry.clear_all()`. -/
def CallbackRegistry.clear_all (_ : CallbackRegistry) : CallbackRegistry :=
  CallbackRegistry.init

/-- Embeds `CallbackRegistry.has_callbacks(conn_handle)`. -/
def CallbackRegistry.has_callbacks (reg : CallbackRegistry)
    (conn_handle : Option Nat) : Bool :=
  (reg._write_done_callbacks conn_handle).isSome
    || (reg._notify_callbacks conn_handle).isSome
    || (reg._disconn_callbacks conn_handle).isSome

/-- The orchestrator (`BLEHandler`) components the connection managers touch:
its discovery manager, its connection context, its callback registry and the
`mtu` attribute set by MTU negotiation.  The raw radio primitives (`scan`,
`gap_disconnect`, `gattc_exchange_mtu`, writes, logging) live outside the
modelled state. -/
structure BLEHandler where
  _discovery : DiscoveryManager
  _connection : ConnectionContext
  _callbacks : CallbackRegistry
  mtu : Int

/-- Result of a manager `connect` call: the value returned to the caller, the
number of polling ticks the wait loop performed (each tick prints one progress
line, so it is caller-observable), the final orchestrator state, and the final
`is_connecting` flag of the manager. -/
structure ConnectOutcome (ρ : Type) where
  result : ρ
  ticks : Nat
  handler : BLEHandler
  is_connecting : Bool

/-- The one-second polling loop shared verbatim by
`UARTConnectionManager.connect` and `LEGOConnectionManager.connect`
(`for i in range(timeout): print/log; sleep_ms(1000); if mode == CONNECTING_NONE: break`).
`env i` is the state change the event-driven orchestrator code performs during
tick `i`'s sleep; the loop then checks the discovery mode and breaks when it
has returned to `CONNECTING_NONE`.  Returns the number of ticks performed and
the state at loop exit. -/
def pollLoop (env : Nat → BLEHandler → BLEHandler) :
    Nat → BLEHandler → Nat × BLEHandler
  | 0, h => (0, h)
  | n + 1, h =>
      let h' := env 0 h
      if h'._discovery.mode = CONNECTING_NONE then (1, h')
      else
        let r := pollLoop (fun i => env (i + 1)) n h'
        (r.1 + 1, r.2)

/-- The orchestrator state after tick `n` of the polling loop: `env 0`, then
`env 1`, …, then `env (n-1)` applied to the initial state. -/
def stateAt (env : Nat → BLEHandler → BLEHandler) :
    Nat → BLEHandler → BLEHandler
  | 0, h => h
  | n + 1, h => stateAt (fun i => env (i + 1)) n (env 0 h)

/-- Embeds `UARTConnectionManager._negotiate_mtu()`.  The interaction with the
BLE stack is summarised by `mtuResult`: `Except.ok m` means every primitive
succeeded and `config("mtu")` returned `m`, so `self.ble_handler.mtu = m - 4`;
`Except.error` means some step raised, and the `except: pass` swallows the
exception leaving the handler (and hence the default MTU) unchanged. -/
def UARTConnectionManager._negotiate_mtu (mtuResult : Except Unit Int)
    (h : BLEHandler) : BLEHandler :=
  match mtuResult with
  | Except.ok m => { h with mtu := m - 4 }
  | Except.error _ => h

/-- The state set up by the opening lines of `UARTConnectionManager.connect`:
`start_uart_discovery(name)` (with both optional callbacks defaulted to
`None`) and `self.ble_handler._connection.reset()`.  The subsequent
`self.ble_handler.scan()` starts the radio; its effects arrive through `env`. -/
def UARTConnectionManager.connect_start (name : String) (h : BLEHandler) : BLEHandler :=
  { h with
    _discovery := h._discovery.start_uart_discovery name none none
    _connection := h._connection.reset }

/-- Embeds `UARTConnectionManager.connect(name, on_disconnect, on_notify,
on_write_done, timeout, debug)`.  `env` models the asynchronous BLE events
during the wait loop, `mtuResult` the MTU negotiation outcome.  After the wait
loop: on `is_uart_ready()` the caller-supplied callbacks are registered under
the current connection handle, MTU is negotiated best-effort and the handle
triple is returned; otherwise `(None, None, None)`.  Either way discovery is
stopped and `is_connecting` cleared. -/
def UARTConnectionManager.connect (env : Nat → BLEHandler → BLEHandler)
    (mtuResult : Except Unit Int) (name : String)
    (on_disconnect on_notify on_write_done : Option Nat)
    (timeout : Nat) (h : BLEHandler) :
    ConnectOutcome (Option Nat × Option Nat × Option Nat) :=
  let lp := pollLoop env timeout (UARTConnectionManager.connect_start name h)
  let h2 := lp.2
  if h2._connection.is_uart_ready then
    let cbs1 := match on_notify with
      | some cb => h2._callbacks.on_notify h2._connection.conn_handle cb
      | none => h2._callbacks
    let cbs2 := match on_disconnect with
      | some cb => cbs1.on_disconnect h2._connection.conn_handle cb
      | none => cbs1
    let cbs3 := match on_write_done with
      | some cb => cbs2.on_write_done h2._connection.conn_handle cb
      | none => cbs2
    let h3 := { h2 with _callbacks := cbs3 }
    let h4 := UARTConnectionManager._negotiate_mtu mtuResult h3
    let result := (h4._connection.conn_handle,
                   h4._connection.uart_rx_handle,
                   h4._connection.uart_tx_handle)
    let h5 := { h4 with _discovery := h4._discovery.stop_discovery }
    ⟨result, lp.1, h5, false⟩
  else
    let h5 := { h2 with _discovery := h2._discovery.stop_discovery }
    ⟨(none, none, none), lp.1, h5, false⟩

/-- Outcome of the external `gap_disconnect` call inside `disconnect`:
`gapFails = true` means it raised.  Either way the surrounding
`try/except: pass` discards the outcome, so the modelled state is untouched. -/
def gap_disconnect_result (gapFails : Bool) : Except Unit Unit :=
  if gapFails then Except.error () else Except.ok ()

/-- Embeds `UARTConnectionManager.disconnect(conn_handle)`: nothing when
`conn_handle is None`; otherwise best-effort `gap_disconnect` (exception
discarded), then `CallbackRegistry.clear_connection(conn_handle)` and
`ConnectionContext.clear_connection()`. -/
def UARTConnectionManager.disconnect (gapFails : Bool) (conn_handle : Option Nat)
    (h : BLEHandler) : BLEHandler :=
  match conn_handle with
  | none => h
  | some c =>
      let _ := gap_disconnect_result gapFails
      { h with
        _callbacks := h._callbacks.clear_connection (some c)
        _connection := h._connection.clear_connection }

/-- The state set up by the opening lines of `LEGOConnectionManager.connect`:
`start_lego_discovery()` and `reset()`; `scan()` effects arrive through `env`. -/
def LEGOConnectionManager.connect_start (h : BLEHandler) : BLEHandler :=
  { h with
    _discovery := h._discovery.start_lego_discovery none none
    _connection := h._connection.reset }

/-- Embeds `LEGOConnectionManager.connect(timeout, debug)`: wait loop, then
the connection handle when `is_lego_ready()` else `None`, then
`stop_discovery()` and the `is_connecting` flag cleared. -/
def LEGOConnectionManager.connect (env : Nat → BLEHandler → BLEHandler)
    (timeout : Nat) (h : BLEHandler) : ConnectOutcome (Option Nat) :=
  let lp := pollLoop env timeout (LEGOConnectionManager.connect_start h)
  let h2 := lp.2
  let conn_handle := if h2._connection.is_lego_ready then h2._connection.conn_handle else none
  let h3 := { h2 with _discovery := h2._discovery.stop_discovery }
  ⟨conn_handle, lp.1, h3, false⟩

/-- Embeds `LEGOConnectionManager.disconnect(conn_handle)`, identical in the
source to the UART manager's `disconnect`. -/
def LEGOConnectionManager.disconnect (gapFails : Bool) (conn_handle : Option Nat)
    (h : BLEHandler) : BLEHandler :=
  match conn_handle with
  | none => h
  | some c =>
      let _ := gap_disconnect_result gapFails
      { h with
        _callbacks := h._callbacks.clear_connection (some c)
        _connection := h._connection.clear_connection }

/-- Embeds `LEGOConnectionManager.get_hub_name(conn_handle)`:
`if self.ble_handler._connection.name:` is Python truthiness, so both `None`
and the empty string yield `None`; the `conn_handle` parameter is unused in
the source. -/
def LEGOConnectionManager.get_hub_name (h : BLEHandler)
    (_conn_handle : Option Nat) : Option String :=
  match h._connection.name with
  | some n => if n = "" then none else some n
  | none => none

/-- Characterization of `on_scan_result` when the discovery mode is
`CONNECTING_UART`: only the UART branch can fire. -/
theorem on_scan_result_uart_mode (dm : DiscoveryManager)
    (hmode : dm.mode = CONNECTING_UART) (addr_type : Nat) (addr : List Nat)
    (name : String) (services : List Nat) (uart_uuid lego_uuid : Nat) :
    dm.on_scan_result addr_type addr name services uart_uuid lego_uuid =
      (if dm._search_name = some name ∧ uart_uuid ∈ services then
        (true, { dm with _addr_type := some addr_type, _addr := some (pybytes addr) },
          scan_result_calls dm._scan_result_callback addr_type addr name services)
      else
        (false, dm,
          scan_result_calls dm._scan_result_callback addr_type addr name services)) := by
  by_cases hc : dm._search_name = some name ∧ uart_uuid ∈ services <;>
    simp [DiscoveryManager.on_scan_result, hmode, CONNECTING_UART, CONNECTING_LEGO, hc]

/-- Characterization of `on_scan_result` when the discovery mode is
`CONNECTING_LEGO`: only the hub branch can fire, and the advertised name is
never consulted. -/
theorem on_scan_result_lego_mode (dm : DiscoveryManager)
    (hmode : dm.mode = CONNECTING_LEGO) (addr_type : Nat) (addr : List Nat)
    (name : String) (services : List Nat) (uart_uuid lego_uuid : Nat) :
    dm.on_scan_result addr_type addr name services uart_uuid lego_uuid =
      (if lego_uuid ∈ services then
        (true,
          { dm with
              _addr_type := some addr_type
              _addr := some (pybytes addr)
              _adv_type := none
              _name := some name
              _services := some services },
          scan_result_calls dm._scan_result_callback addr_type addr name services)
      else
        (false, dm,
          scan_result_calls dm._scan_result_callback addr_type addr name services)) := by
  by_cases hc : lego_uuid ∈ services <;>
    simp [DiscoveryManager.on_scan_result, hmode, CONNECTING_UART, CONNECTING_LEGO, hc]

/-- C1: in an active UART discovery session with recorded search name `S`,
`on_scan_result` returns true iff the advertised name equals `S` and the UART
service UUID is among the advertised services; on a match it stores an owned
copy of the address pair, so `get_discovered_address()` on the resulting state
returns exactly that pair. -/
theorem C1_uart_scan_match (dm : DiscoveryManager) (S : String)
    (hmode : dm.mode = CONNECTING_UART) (hname : dm._search_name = some S)
    (addr_type : Nat) (addr : List Nat) (name : String) (services : List Nat)
    (uart_uuid lego_uuid : Nat) :
    ((dm.on_scan_result addr_type addr name services uart_uuid lego_uuid).1 = true
        ↔ (name = S ∧ uart_uuid ∈ services)) ∧
    ((dm.on_scan_result addr_type addr name services uart_uuid lego_uuid).1 = true →
      DiscoveryManager.get_discovered_address
          (dm.on_scan_result addr_type addr name services uart_uuid lego_uuid).2.1
        = (some addr_type, some (pybytes addr))) := by
  rw [on_scan_result_uart_mode dm hmode]
  by_cases hc : dm._search_name = some name ∧ uart_uuid ∈ services
  · have hn : name = S := by
      have := hc.1
      rw [hname] at this
      exact (Option.some.injEq _ _ ▸ this.symm)
    simp [hc, DiscoveryManager.get_discovered_address, hn, hc.2]
  · simp only [hc, if_false, reduceIte]
    constructor
    · constructor
      · intro hfalse; cases hfalse
      · intro ⟨h1, h2⟩
        exact absurd ⟨by rw [hname, h1], h2⟩ hc
    · intro hfalse; cases hfalse

/-- Witness for C1: Scenario A — search name `"robot"`, advertisement with
name `"robot"` carrying the UART service UUID matches and the address pair is
stored. -/
theorem C1_uart_scan_match_witness :
    let dm : DiscoveryManager :=
      DiscoveryManager.init.start_uart_discovery "robot" none none
    dm.mode = CONNECTING_UART ∧ dm._search_name = some "robot" ∧
      (((dm.on_scan_result 1 [1, 2, 3, 4, 5, 6] "robot" [77] 77 88).1 = true
          ↔ ("robot" = "robot" ∧ 77 ∈ [77])) ∧
        ((dm.on_scan_result 1 [1, 2, 3, 4, 5, 6] "robot" [77] 77 88).1 = true →
          DiscoveryManager.get_discovered_address
              (dm.on_scan_result 1 [1, 2, 3, 4, 5, 6] "robot" [77] 77 88).2.1
            = (some 1, some (pybytes [1, 2, 3, 4, 5, 6])))) :=
  ⟨by decide, by decide,
    C1_uart_scan_match _ "robot" (by decide) (by decide) 1 [1, 2, 3, 4, 5, 6]
      "robot" [77] 77 88⟩

/-- C2: in an active hub discovery session, `on_scan_result` returns true iff
the hub service UUID is among the advertised services, whatever the advertised
name; on a match it stores the address type, an owned copy of the address, the
advertised name and the advertised services. -/
theorem C2_lego_scan_match (dm : DiscoveryManager)
    (hmode : dm.mode = CONNECTING_LEGO)
    (addr_type : Nat) (addr : List Nat) (name : String) (services : List Nat)
    (uart_uuid lego_uuid : Nat) :
    ((dm.on_scan_result addr_type addr name services uart_uuid lego_uuid).1 = true
        ↔ lego_uuid ∈ services) ∧
    ((dm.on_scan_result addr_type addr name services uart_uuid lego_uuid).1 = true →
      (dm.on_scan_result addr_type addr name services uart_uuid lego_uuid).2.1._addr_type
          = some addr_type ∧
        (dm.on_scan_result addr_type addr name services uart_uuid lego_uuid).2.1._addr
          = some (pybytes addr) ∧
        (dm.on_scan_result addr_type addr name services uart_uuid lego_uuid).2.1._name
          = some name ∧
        (dm.on_scan_result addr_type addr name services uart_uuid lego_uuid).2.1._services
          = some services) := by
  rw [on_scan_result_lego_mode dm hmode]
  by_cases hc : lego_uuid ∈ services
  · simp [hc]
  · simp [hc]

/-- Witness for C2: Scenario C — a hub session matches an advertisement
carrying the hub service UUID although the name is `"AnyName"`, and stores the
advertisement data. -/
theorem C2_lego_scan_match_witness :
    let dm : DiscoveryManager :=
      DiscoveryManager.init.start_lego_discovery none none
    dm.mode = CONNECTING_LEGO ∧
      (((dm.on_scan_result 0 [170, 170, 170, 170, 170, 170] "AnyName" [88] 77 88).1 = true
          ↔ 88 ∈ [88]) ∧
        ((dm.on_scan_result 0 [170, 170, 170, 170, 170, 170] "AnyName" [88] 77 88).1 = true →
          (dm.on_scan_result 0 [170, 170, 170, 170, 170, 170] "AnyName" [88] 77 88).2.1._addr_type
              = some 0 ∧
            (dm.on_scan_result 0 [170, 170, 170, 170, 170, 170] "AnyName" [88] 77 88).2.1._addr
              = some (pybytes [170, 170, 170, 170, 170, 170]) ∧
            (dm.on_scan_result 0 [170, 170, 170, 170, 170, 170] "AnyName" [88] 77 88).2.1._name
              = some "AnyName" ∧
            (dm.on_scan_result 0 [170, 170, 170, 170, 170, 170] "AnyName" [88] 77 88).2.1._services
              = some [88])) :=
  ⟨by decide,
    C2_lego_scan_match _ (by decide) 0 [170, 170, 170, 170, 170, 170] "AnyName" [88] 77 88⟩

/-- C10: when no discovery session is active, `on_scan_done` returns
`(False, None)`, and a still-installed scan-done callback is nevertheless
invoked and passed `False`. -/
theorem C10_scan_done_idle (dm : DiscoveryManager)
    (hmode : dm.mode = CONNECTING_NONE) :
    dm.on_scan_done.1 = false ∧ dm.on_scan_done.2.1 = none ∧
      (∀ cb, dm._scan_done_callback = some cb → dm.on_scan_done.2.2 = [(cb, false)]) ∧
      (dm._scan_done_callback = none → dm.on_scan_done.2.2 = []) := by
  refine ⟨?_, ?_, ?_, ?_⟩ <;>
    simp [DiscoveryManager.on_scan_done, hmode, CONNECTING_NONE, CONNECTING_UART,
      CONNECTING_LEGO, scan_done_calls]
  · intro cb hcb
    simp [hcb]
  · intro hcb
    simp [hcb]

/-- Witness for C10: a manager with mode `CONNECTING_NONE` and an installed
scan-done callback token `7`. -/
theorem C10_scan_done_idle_witness :
    let dm : DiscoveryManager :=
      { DiscoveryManager.init with _scan_done_callback := some 7, _addr_type := some 1 }
    dm.mode = CONNECTING_NONE ∧
      (dm.on_scan_done.1 = false ∧ dm.on_scan_done.2.1 = none ∧
        (∀ cb, dm._scan_done_callback = some cb → dm.on_scan_done.2.2 = [(cb, false)]) ∧
        (dm._scan_done_callback = none → dm.on_scan_done.2.2 = [])) :=
  ⟨by decide, C10_scan_done_idle _ (by decide)⟩

/-- C4: for every connection handle and registry state, `clear_connection`
removes exactly the write-done, notify and disconnect entries for that handle
(so `has_callbacks` becomes false there), and leaves every value-handle-keyed
write callback, every entry under a different connection handle, and every
singleton callback unchanged. -/
theorem C4_registry_clear_connection (reg : CallbackRegistry) (conn : Option Nat) :
    ((reg.clear_connection conn)._write_done_callbacks conn = none ∧
      (reg.clear_connection conn)._notify_callbacks conn = none ∧
      (reg.clear_connection conn)._disconn_callbacks conn = none) ∧
    (reg.clear_connection conn).has_callbacks conn = false ∧
    (∀ v, (reg.clear_connection conn)._write_callbacks v = reg._write_callbacks v) ∧
    (∀ k, k ≠ conn →
      (reg.clear_connection conn)._write_done_callbacks k = reg._write_done_callbacks k ∧
        (reg.clear_connection conn)._notify_callbacks k = reg._notify_callbacks k ∧
        (reg.clear_connection conn)._disconn_callbacks k = reg._disconn_callbacks k) ∧
    (reg.clear_connection conn)._central_conn_callback = reg._central_conn_callback ∧
    (reg.clear_connection conn)._central_disconn_callback = reg._central_disconn_callback ∧
    (reg.clear_connection conn)._scan_result_callback = reg._scan_result_callback ∧
    (reg.clear_connection conn)._scan_done_callback = reg._scan_done_callback ∧
    (reg.clear_connection conn)._char_result_callback = reg._char_result_callback := by
  refine ⟨⟨?_, ?_, ?_⟩, ?_, ?_, ?_, rfl, rfl, rfl, rfl, rfl⟩ <;>
    simp [CallbackRegistry.clear_connection, CallbackRegistry.has_callbacks]
  intro k hk
  simp [hk]

/-- Witness for C4: a registry holding a value-handle-keyed write callback and
all three connection-scoped callbacks for connection handle `5`. -/
theorem C4_registry_clear_connection_witness :
    let reg : CallbackRegistry :=
      ((((CallbackRegistry.init.on_write (some 12) 100).on_write_done (some 5) 101).on_notify
          (some 5) 102).on_disconnect (some 5) 103)
    (((reg.clear_connection (some 5))._write_done_callbacks (some 5) = none ∧
        (reg.clear_connection (some 5))._notify_callbacks (some 5) = none ∧
        (reg.clear_connection (some 5))._disconn_callbacks (some 5) = none) ∧
      (reg.clear_connection (some 5)).has_callbacks (some 5) = false ∧
      (∀ v, (reg.clear_connection (some 5))._write_callbacks v = reg._write_callbacks v) ∧
      (∀ k, k ≠ some 5 →
        (reg.clear_connection (some 5))._write_done_callbacks k
            = reg._write_done_callbacks k ∧
          (reg.clear_connection (some 5))._notify_callbacks k = reg._notify_callbacks k ∧
          (reg.clear_connection (some 5))._disconn_callbacks k = reg._disconn_callbacks k) ∧
      (reg.clear_connection (some 5))._central_conn_callback = reg._central_conn_callback ∧
      (reg.clear_connection (some 5))._central_disconn_callback
          = reg._central_disconn_callback ∧
      (reg.clear_connection (some 5))._scan_result_callback = reg._scan_result_callback ∧
      (reg.clear_connection (some 5))._scan_done_callback = reg._scan_done_callback ∧
      (reg.clear_connection (some 5))._char_result_callback = reg._char_result_callback) ∧
    reg._write_callbacks (some 12) = some 100 ∧ reg.has_callbacks (some 5) = true :=
  ⟨C4_registry_clear_connection _ (some 5), by decide, by decide⟩

/-- C5: `ConnectionContext.clear_connection()` unsets only the connection
handle and returns the state to idle, leaving address, name, services, GATT
discovery handles and protocol handles unchanged; consequently, after a hub
connect that discovered name `"Hub42"`, `disconnect(conn)` followed by the
hub-name accessor still returns `"Hub42"`. -/
theorem C5_clear_connection_frame :
    (∀ ctx : ConnectionContext,
      ctx.clear_connection.conn_handle = none ∧
        ctx.clear_connection.state = STATE_IDLE ∧
        ctx.clear_connection.addr_type = ctx.addr_type ∧
        ctx.clear_connection.addr = ctx.addr ∧
        ctx.clear_connection.start_handle = ctx.start_handle ∧
        ctx.clear_connection.end_handle = ctx.end_handle ∧
        ctx.clear_connection.uart_rx_handle = ctx.uart_rx_handle ∧
        ctx.clear_connection.uart_tx_handle = ctx.uart_tx_handle ∧
        ctx.clear_connection.lego_value_handle = ctx.lego_value_handle ∧
        ctx.clear_connection.adv_type = ctx.adv_type ∧
        ctx.clear_connection.name = ctx.name ∧
        ctx.clear_connection.services = ctx.services) ∧
    (∀ (gapFails : Bool) (c : Nat) (h : BLEHandler),
      h._connection.name = some "Hub42" →
        LEGOConnectionManager.get_hub_name
            (LEGOConnectionManager.disconnect gapFails (some c) h) none
          = some "Hub42") := by
  constructor
  · intro ctx
    refine ⟨rfl, rfl, rfl, rfl, rfl, rfl, rfl, rfl, rfl, rfl, rfl, rfl⟩
  · intro gapFails c h hname
    simp [LEGOConnectionManager.disconnect, LEGOConnectionManager.get_hub_name,
      ConnectionContext.clear_connection, hname]

/-- Witness for C5: a connected handler whose context carries name `"Hub42"`;
after `disconnect(3)` the accessor still reports `"Hub42"`. -/
theorem C5_clear_connection_frame_witness :
    (let h : BLEHandler :=
      { _discovery := DiscoveryManager.init
        _connection :=
          { ConnectionContext.init with conn_handle := some 3, name := some "Hub42" }
        _callbacks := CallbackRegistry.init
        mtu := 23 }
    h._connection.name = some "Hub42" ∧
      LEGOConnectionManager.get_hub_name
          (LEGOConnectionManager.disconnect false (some 3) h) none
        = some "Hub42") :=
  ⟨by decide, (C5_clear_connection_frame.2) false 3 _ (by decide)⟩

/-- C6: `set_connection_info` always assigns the connection handle; an absent
`addr_type` or `addr` argument leaves the previously stored field unchanged,
and a provided `addr` is stored as the owned `bytes` copy of the caller's
buffer. -/
theorem C6_set_connection_info (ctx : ConnectionContext) (conn : Option Nat)
    (addr_type : Option Nat) (addr : Option (List Nat)) :
    (ctx.set_connection_info conn addr_type addr).conn_handle = conn ∧
    (addr_type = none →
      (ctx.set_connection_info conn addr_type addr).addr_type = ctx.addr_type) ∧
    (addr = none → (ctx.set_connection_info conn addr_type addr).addr = ctx.addr) ∧
    (∀ t, addr_type = some t →
      (ctx.set_connection_info conn addr_type addr).addr_type = some t) ∧
    (∀ a, addr = some a →
      (ctx.set_connection_info conn addr_type addr).addr = some (pybytes a)) := by
  refine ⟨?_, ?_, ?_, ?_, ?_⟩ <;>
    cases addr_type <;> cases addr <;>
      simp [ConnectionContext.set_connection_info]

/-- Witness for C6: updating only the connection handle on a context with a
stored address keeps the address, and a provided address is stored as a copy. -/
theorem C6_set_connection_info_witness :
    let ctx : ConnectionContext :=
      { ConnectionContext.init with addr_type := some 1, addr := some [9, 9] }
    ((ctx.set_connection_info (some 4) none none).conn_handle = some 4 ∧
      ((none : Option Nat) = none →
        (ctx.set_connection_info (some 4) none none).addr_type = ctx.addr_type) ∧
      ((none : Option (List Nat)) = none →
        (ctx.set_connection_info (some 4) none none).addr = ctx.addr) ∧
      (∀ t, (none : Option Nat) = some t →
        (ctx.set_connection_info (some 4) none none).addr_type = some t) ∧
      (∀ a, (none : Option (List Nat)) = some a →
        (ctx.set_connection_info (some 4) none none).addr = some (pybytes a))) ∧
    (ctx.set_connection_info (some 4) none (some [7, 8])).addr = some (pybytes [7, 8]) :=
  ⟨C6_set_connection_info _ (some 4) none none, by decide⟩

/-- C8: for a non-absent connection handle, `disconnect` on either manager
discards the outcome of the link-teardown request and unconditionally clears
the registry entries for that handle and narrows the connection context;
for an absent handle it changes nothing. -/
theorem C8_disconnect_cleanup (gapFails : Bool) (c : Nat) (h : BLEHandler) :
    UARTConnectionManager.disconnect gapFails (some c) h =
      { h with
        _callbacks := h._callbacks.clear_connection (some c)
        _connection := h._connection.clear_connection } ∧
    UARTConnectionManager.disconnect gapFails none h = h ∧
    LEGOConnectionManager.disconnect gapFails (some c) h =
      { h with
        _callbacks := h._callbacks.clear_connection (some c)
        _connection := h._connection.clear_connection } ∧
    LEGOConnectionManager.disconnect gapFails none h = h :=
  ⟨rfl, rfl, rfl, rfl⟩

/-- Iterating `stateAt` under an environment that delivers no events leaves
the state unchanged. -/
theorem stateAt_of_id (n : Nat) :
    ∀ (env : Nat → BLEHandler → BLEHandler), (∀ i s, env i s = s) →
      ∀ h : BLEHandler, stateAt env n h = h := by
  induction n with
  | zero => intro env _ h; rfl
  | succ m ih =>
      intro env henv h
      show stateAt (fun i => env (i + 1)) m (env 0 h) = h
      rw [henv 0 h]
      exact ih _ (fun i s => henv (i + 1) s) h

/-- If the discovery mode is away from `CONNECTING_NONE` at every check of the
wait loop, the loop runs for the full `n` ticks and ends in the state after
tick `n`. -/
theorem pollLoop_no_resolution (n : Nat) :
    ∀ (env : Nat → BLEHandler → BLEHandler) (h : BLEHandler),
      (∀ j, 1 ≤ j → j ≤ n → (stateAt env j h)._discovery.mode ≠ CONNECTING_NONE) →
      pollLoop env n h = (n, stateAt env n h) := by
  induction n with
  | zero => intro env h _; rfl
  | succ m ih =>
      intro env h hmode
      have h1 : (env 0 h)._discovery.mode ≠ CONNECTING_NONE :=
        hmode 1 (by omega) (by omega)
      have hrec := ih (fun i => env (i + 1)) (env 0 h)
        (fun j hj hjm => hmode (j + 1) (by omega) (by omega))
      simp only [pollLoop, h1, if_neg, reduceIte, hrec]
      rfl

/-- If the discovery mode first returns to `CONNECTING_NONE` at the check of
tick `k ≤ n`, the wait loop exits on that very tick: it performs exactly `k`
ticks and ends in the state after tick `k`. -/
theorem pollLoop_first_resolution (k : Nat) :
    ∀ (n : Nat) (env : Nat → BLEHandler → BLEHandler) (h : BLEHandler),
      1 ≤ k → k ≤ n →
      (stateAt env k h)._discovery.mode = CONNECTING_NONE →
      (∀ j, 1 ≤ j → j < k → (stateAt env j h)._discovery.mode ≠ CONNECTING_NONE) →
      pollLoop env n h = (k, stateAt env k h) := by
  induction k with
  | zero => intro n env h h1; omega
  | succ m ih =>
      intro n env h _ hkn hmode hprev
      cases n with
      | zero => omega
      | succ n' =>
          by_cases h0 : (env 0 h)._discovery.mode = CONNECTING_NONE
          · cases m with
            | zero =>
                simp only [pollLoop, h0, reduceIte]
                rfl
            | succ m' =>
                exact absurd h0 (hprev 1 (by omega) (by omega))
          · cases m with
            | zero => exact absurd hmode h0
            | succ m' =>
                have hrec := ih n' (fun i => env (i + 1)) (env 0 h)
                  (by omega) (by omega) hmode
                  (fun j hj hjm => hprev (j + 1) (by omega) (by omega))
                simp only [pollLoop, h0, reduceIte, hrec]
                rfl

/-- An orchestrator with every component in its `__init__` state (the `mtu`
attribute starts at the BLE default of 23); used to instantiate witnesses. -/
def BLEHandler.init : BLEHandler :=
  { _discovery := DiscoveryManager.init
    _connection := ConnectionContext.init
    _callbacks := CallbackRegistry.init
    mtu := 23 }

/-- C3: when no event ever resolves the discovery attempt, `connect` on either
manager performs exactly `T` polling ticks, returns the all-absent result, and
leaves the discovery mode at `CONNECTING_NONE`; and in general, if the mode
first returns to `CONNECTING_NONE` at the check of tick `k`, the wait loop
exits early on that very tick. -/
theorem C3_connect_timeout (T : Nat) (_hT : 1 ≤ T)
    (env : Nat → BLEHandler → BLEHandler) (henv : ∀ i s, env i s = s)
    (mtuResult : Except Unit Int) (name : String)
    (on_disconnect on_notify on_write_done : Option Nat) (h : BLEHandler) :
    ((UARTConnectionManager.connect env mtuResult name on_disconnect on_notify
          on_write_done T h).ticks = T ∧
      (UARTConnectionManager.connect env mtuResult name on_disconnect on_notify
          on_write_done T h).result = (none, none, none) ∧
      (UARTConnectionManager.connect env mtuResult name on_disconnect on_notify
          on_write_done T h).handler._discovery.mode = CONNECTING_NONE) ∧
    ((LEGOConnectionManager.connect env T h).ticks = T ∧
      (LEGOConnectionManager.connect env T h).result = none ∧
      (LEGOConnectionManager.connect env T h).handler._discovery.mode
        = CONNECTING_NONE) ∧
    (∀ (envA : Nat → BLEHandler → BLEHandler) (k n : Nat) (s : BLEHandler),
      1 ≤ k → k ≤ n →
      (stateAt envA k s)._discovery.mode = CONNECTING_NONE →
      (∀ j, 1 ≤ j → j < k → (stateAt envA j s)._discovery.mode ≠ CONNECTING_NONE) →
      pollLoop envA n s = (k, stateAt envA k s)) := by
  have hpollU : pollLoop env T (UARTConnectionManager.connect_start name h)
      = (T, UARTConnectionManager.connect_start name h) := by
    have := pollLoop_no_resolution T env (UARTConnectionManager.connect_start name h)
      (fun j hj hjT => by
        rw [stateAt_of_id j env henv]
        simp [UARTConnectionManager.connect_start, DiscoveryManager.start_uart_discovery,
          CONNECTING_UART, CONNECTING_NONE])
    rw [this, stateAt_of_id T env henv]
  have hpollL : pollLoop env T (LEGOConnectionManager.connect_start h)
      = (T, LEGOConnectionManager.connect_start h) := by
    have := pollLoop_no_resolution T env (LEGOConnectionManager.connect_start h)
      (fun j hj hjT => by
        rw [stateAt_of_id j env henv]
        simp [LEGOConnectionManager.connect_start, DiscoveryManager.start_lego_discovery,
          CONNECTING_LEGO, CONNECTING_NONE])
    rw [this, stateAt_of_id T env henv]
  refine ⟨?_, ?_, fun envA k n s h1 h2 h3 h4 => pollLoop_first_resolution k n envA s h1 h2 h3 h4⟩
  · have hready : (UARTConnectionManager.connect_start name h)._connection.is_uart_ready
        = false := by
      simp [UARTConnectionManager.connect_start, ConnectionContext.reset,
        ConnectionContext.init, ConnectionContext.is_uart_ready]
    refine ⟨?_, ?_, ?_⟩ <;>
      simp [UARTConnectionManager.connect, hpollU, hready,
        DiscoveryManager.stop_discovery, CONNECTING_NONE]
  · have hready : (LEGOConnectionManager.connect_start h)._connection.is_lego_ready
        = false := by
      simp [LEGOConnectionManager.connect_start, ConnectionContext.reset,
        ConnectionContext.init, ConnectionContext.is_lego_ready]
    refine ⟨?_, ?_, ?_⟩ <;>
      simp [LEGOConnectionManager.connect, hpollL, hready,
        DiscoveryManager.stop_discovery, CONNECTING_NONE]

/-- Witness for C3: Scenario D — with no events delivered, `connect` with a
three-second timeout performs exactly three ticks and returns the all-absent
result with discovery mode back at `CONNECTING_NONE`. -/
theorem C3_connect_timeout_witness :
    1 ≤ 3 ∧
      (((UARTConnectionManager.connect (fun _ s => s) (Except.ok 185) "robot" none none
            none 3 BLEHandler.init).ticks = 3 ∧
        (UARTConnectionManager.connect (fun _ s => s) (Except.ok 185) "robot" none none
            none 3 BLEHandler.init).result = (none, none, none) ∧
        (UARTConnectionManager.connect (fun _ s => s) (Except.ok 185) "robot" none none
            none 3 BLEHandler.init).handler._discovery.mode = CONNECTING_NONE) ∧
      ((LEGOConnectionManager.connect (fun _ s => s) 3 BLEHandler.init).ticks = 3 ∧
        (LEGOConnectionManager.connect (fun _ s => s) 3 BLEHandler.init).result = none ∧
        (LEGOConnectionManager.connect (fun _ s => s) 3 BLEHandler.init).handler._discovery.mode
          = CONNECTING_NONE) ∧
      (∀ (envA : Nat → BLEHandler → BLEHandler) (k n : Nat) (s : BLEHandler),
        1 ≤ k → k ≤ n →
        (stateAt envA k s)._discovery.mode = CONNECTING_NONE →
        (∀ j, 1 ≤ j → j < k → (stateAt envA j s)._discovery.mode ≠ CONNECTING_NONE) →
        pollLoop envA n s = (k, stateAt envA k s))) :=
  ⟨by omega,
    C3_connect_timeout 3 (by omega) (fun _ s => s) (fun _ _ => rfl) (Except.ok 185)
      "robot" none none none BLEHandler.init⟩

/-- C7: on a UART connect attempt that reaches the success path, a failure of
MTU negotiation is swallowed: `connect` still returns the handle triple read
from the connection context, the MTU attribute keeps its pre-negotiation
(default) value, and the returned tuple is the same as it would be had
negotiation succeeded. -/
theorem C7_mtu_failure_swallowed (env : Nat → BLEHandler → BLEHandler)
    (name : String) (on_disconnect on_notify on_write_done : Option Nat)
    (T : Nat) (h : BLEHandler)
    (hready :
      ((pollLoop env T (UARTConnectionManager.connect_start name h)).2)._connection.is_uart_ready
        = true) :
    (UARTConnectionManager.connect env (Except.error ()) name on_disconnect on_notify
        on_write_done T h).result =
      (((pollLoop env T (UARTConnectionManager.connect_start name h)).2)._connection.conn_handle,
        ((pollLoop env T (UARTConnectionManager.connect_start name h)).2)._connection.uart_rx_handle,
        ((pollLoop env T (UARTConnectionManager.connect_start name h)).2)._connection.uart_tx_handle) ∧
    (UARTConnectionManager.connect env (Except.error ()) name on_disconnect on_notify
        on_write_done T h).handler.mtu =
      ((pollLoop env T (UARTConnectionManager.connect_start name h)).2).mtu ∧
    (∀ m : Int,
      (UARTConnectionManager.connect env (Except.error ()) name on_disconnect on_notify
          on_write_done T h).result =
        (UARTConnectionManager.connect env (Except.ok m) name on_disconnect on_notify
            on_write_done T h).result) := by
  refine ⟨?_, ?_, ?_⟩ <;>
    simp [UARTConnectionManager.connect, hready, UARTConnectionManager._negotiate_mtu]

/-- Witness for C7: events during the wait deliver both UART handles, so the
success path is reached; with failing MTU negotiation `connect` still returns
the handle triple and the MTU attribute keeps its default value 23. -/
theorem C7_mtu_failure_swallowed_witness :
    (((pollLoop (fun _ s => { s with _connection := s._connection.set_uart_handles 10 11 })
          2 (UARTConnectionManager.connect_start "robot" BLEHandler.init)).2)._connection.is_uart_ready
        = true) ∧
    ((UARTConnectionManager.connect
          (fun _ s => { s with _connection := s._connection.set_uart_handles 10 11 })
          (Except.error ()) "robot" none none none 2 BLEHandler.init).result =
        (((pollLoop (fun _ s => { s with _connection := s._connection.set_uart_handles 10 11 })
              2 (UARTConnectionManager.connect_start "robot" BLEHandler.init)).2)._connection.conn_handle,
          ((pollLoop (fun _ s => { s with _connection := s._connection.set_uart_handles 10 11 })
              2 (UARTConnectionManager.connect_start "robot" BLEHandler.init)).2)._connection.uart_rx_handle,
          ((pollLoop (fun _ s => { s with _connection := s._connection.set_uart_handles 10 11 })
              2 (UARTConnectionManager.connect_start "robot" BLEHandler.init)).2)._connection.uart_tx_handle) ∧
      (UARTConnectionManager.connect
          (fun _ s => { s with _connection := s._connection.set_uart_handles 10 11 })
          (Except.error ()) "robot" none none none 2 BLEHandler.init).handler.mtu =
        ((pollLoop (fun _ s => { s with _connection := s._connection.set_uart_handles 10 11 })
            2 (UARTConnectionManager.connect_start "robot" BLEHandler.init)).2).mtu ∧
      (∀ m : Int,
        (UARTConnectionManager.connect
            (fun _ s => { s with _connection := s._connection.set_uart_handles 10 11 })
            (Except.error ()) "robot" none none none 2 BLEHandler.init).result =
          (UARTConnectionManager.connect
              (fun _ s => { s with _connection := s._connection.set_uart_handles 10 11 })
              (Except.ok m) "robot" none none none 2 BLEHandler.init).result)) :=
  ⟨by decide,
    C7_mtu_failure_swallowed
      (fun _ s => { s with _connection := s._connection.set_uart_handles 10 11 })
      "robot" none none none 2 BLEHandler.init (by decide)⟩

/-- C9: every `connect` call, on success and on failure alike, ends with
discovery stopped — mode `CONNECTING_NONE`, both scan callbacks cleared, and
the match results recorded during the wait still readable — and with the
manager's connecting flag cleared. -/
theorem C9_connect_stops_discovery (env : Nat → BLEHandler → BLEHandler)
    (mtuResult : Except Unit Int) (name : String)
    (on_disconnect on_notify on_write_done : Option Nat) (T : Nat) (h : BLEHandler) :
    ((UARTConnectionManager.connect env mtuResult name on_disconnect on_notify
          on_write_done T h).handler._discovery.mode = CONNECTING_NONE ∧
      (UARTConnectionManager.connect env mtuResult name on_disconnect on_notify
          on_write_done T h).handler._discovery._scan_result_callback = none ∧
      (UARTConnectionManager.connect env mtuResult name on_disconnect on_notify
          on_write_done T h).handler._discovery._scan_done_callback = none ∧
      (UARTConnectionManager.connect env mtuResult name on_disconnect on_notify
          on_write_done T h).is_connecting = false ∧
      (UARTConnectionManager.connect env mtuResult name on_disconnect on_notify
          on_write_done T h).handler._discovery._addr_type =
        ((pollLoop env T (UARTConnectionManager.connect_start name h)).2)._discovery._addr_type ∧
      (UARTConnectionManager.connect env mtuResult name on_disconnect on_notify
          on_write_done T h).handler._discovery._addr =
        ((pollLoop env T (UARTConnectionManager.connect_start name h)).2)._discovery._addr) ∧
    ((LEGOConnectionManager.connect env T h).handler._discovery.mode
        = CONNECTING_NONE ∧
      (LEGOConnectionManager.connect env T h).handler._discovery._scan_result_callback
        = none ∧
      (LEGOConnectionManager.connect env T h).handler._discovery._scan_done_callback
        = none ∧
      (LEGOConnectionManager.connect env T h).is_connecting = false ∧
      (LEGOConnectionManager.connect env T h).handler._discovery._addr_type =
        ((pollLoop env T (LEGOConnectionManager.connect_start h)).2)._discovery._addr_type ∧
      (LEGOConnectionManager.connect env T h).handler._discovery._addr =
        ((pollLoop env T (LEGOConnectionManager.connect_start h)).2)._discovery._addr ∧
      (LEGOConnectionManager.connect env T h).handler._discovery._name =
        ((pollLoop env T (LEGOConnectionManager.connect_start h)).2)._discovery._name ∧
      (LEGOConnectionManager.connect env T h).handler._discovery._services =
        ((pollLoop env T (LEGOConnectionManager.connect_start h)).2)._discovery._services) := by
  constructor
  · by_cases hr :
      ((pollLoop env T (UARTConnectionManager.connect_start name h)).2)._connection.is_uart_ready
        = true <;>
      cases mtuResult <;>
        refine ⟨?_, ?_, ?_, ?_, ?_, ?_⟩ <;>
          simp [UARTConnectionManager.connect, UARTConnectionManager._negotiate_mtu,
            DiscoveryManager.stop_discovery, hr]
  · refine ⟨?_, ?_, ?_, ?_, ?_, ?_, ?_, ?_⟩ <;>
      simp [LEGOConnectionManager.connect, DiscoveryManager.stop_discovery]
